import Mathlib

set_option maxRecDepth 100000
set_option maxHeartbeats 1600000

/-!
Shallow embedding of `src/esp32-c3-basics/esp32-c3-basics.ino`.

The sketch is single-threaded firmware: `setup()` runs once, then `loop()`
repeats forever.  We embed each function as a Lean function producing the
list of observable events it performs (serial output, delays, GPIO writes,
MQTT connect/subscribe/publish attempts, inbound servicing).  Outcomes of
external operations (WiFi status, MQTT connect/subscribe/publish results,
the temperature reading) are supplied by an environment, since they are
decided by hardware and the network, not by the code.
-/

namespace Esp32C3

/-! ## Constants from the source -/

/-- `MQTT_CONNECT_INTERVAL = 10000` (ms), the fixed reconnect backoff. -/
def MQTT_CONNECT_INTERVAL : Nat := 10000

/-- `MQTT_PUB_TOPIC_TEMPERATURE = "/Temperature"`. -/
def MQTT_PUB_TOPIC_TEMPERATURE : String := "/Temperature"

/-- `MQTT_SUB_TOPIC_RGB_LED_RED = "/RGB-Led/Red"`. -/
def MQTT_SUB_TOPIC_RGB_LED_RED : String := "/RGB-Led/Red"

/-- `MQTT_SUB_TOPIC_RGB_LED_GREEN = "/RGB-Led/Green"`. -/
def MQTT_SUB_TOPIC_RGB_LED_GREEN : String := "/RGB-Led/Green"

/-- `MQTT_SUB_TOPIC_RGB_LED_BLUE = "/RGB-Led/Blue"`. -/
def MQTT_SUB_TOPIC_RGB_LED_BLUE : String := "/RGB-Led/Blue"

/-- `LOOP_INTERVAL = 250` (ms), the main loop tick. -/
def LOOP_INTERVAL : Nat := 250

/-- `LOOP_COUNTER_ACTION_VALUE = 0`, counter value triggering the paced actions. -/
def LOOP_COUNTER_ACTION_VALUE : Nat := 0

/-- `LOOP_COUNTER_RESET_VALUE = 240`, counter wrap value. -/
def LOOP_COUNTER_RESET_VALUE : Nat := 240

/-- Pin numbers from the source (`PIN_BOOT_BUTTON = 9`, RGB led pins 3/4/5). -/
def PIN_BOOT_BUTTON : Nat := 9

/-- `PIN_RGB_LED_RED = 3` (low active). -/
def PIN_RGB_LED_RED : Nat := 3

/-- `PIN_RGB_LED_GREEN = 4` (low active). -/
def PIN_RGB_LED_GREEN : Nat := 4

/-- `PIN_RGB_LED_BLUE = 5` (low active). -/
def PIN_RGB_LED_BLUE : Nat := 5

/-- `loop_counter` is a `uint64_t`; its increment wraps modulo `2 ^ 64`. -/
def UINT64_MOD : Nat := 2 ^ 64

/-! ## Pin modes and observable events -/

/-- GPIO pin modes used by the sketch (`INPUT_PULLUP`, `OUTPUT`). -/
inductive PinMode where
  | inputPullup
  | outputPin
deriving DecidableEq

/-- One observable action of the firmware.  `connectAttempt`,
`subscribeAttempt` and `publishAttempt` record the call together with the
outcome the environment returned for it. -/
inductive Event where
  | serialOut (s : String)
  | serialLine (s : String)
  | serialChar (b : Nat)
  | delayMs (ms : Nat)
  | pinModeSet (pin : Nat) (m : PinMode)
  | digitalWrite (pin : Nat) (high : Bool)
  | connectAttempt (clientId : String) (ok : Bool)
  | subscribeAttempt (topic : String) (ok : Bool)
  | publishAttempt (topic : String) (payload : String) (ok : Bool)
  | serviceInbound
deriving DecidableEq

/-- Is the event an MQTT publish call? -/
def Event.isPublish : Event → Bool
  | .publishAttempt _ _ _ => true
  | _ => false

/-- Is the event an MQTT subscribe call? -/
def Event.isSubscribe : Event → Bool
  | .subscribeAttempt _ _ => true
  | _ => false

/-- Is the event an MQTT connect call? -/
def Event.isConnect : Event → Bool
  | .connectAttempt _ _ => true
  | _ => false

/-- Is the event a GPIO write (an actuator state change)? -/
def Event.isGpioWrite : Event → Bool
  | .digitalWrite _ _ => true
  | _ => false

/-- The topic of a subscribe call, if the event is one. -/
def subscribeTarget : Event → Option String
  | .subscribeAttempt t _ => some t
  | _ => none

/-! ## snprintf-style formatting

`snprintf(buf, size, "%s%s", a, b)` writes at most `size - 1` characters of
`a ++ b` into `buf` and always null-terminates, so the resulting C string is
the concatenation truncated to `size - 1` characters. -/

/-- Result of `snprintf(buf, size, "%s%s", a, b)`. -/
def snprintfCat (size : Nat) (a b : String) : String :=
  (a ++ b).take (size - 1)

/-- `mqtt_publish`'s topic: `snprintf(szMqttTopic, 128, "%s%s", hostname, MQTT_PUB_TOPIC_TEMPERATURE)`. -/
def temperatureTopic (host : String) : String :=
  snprintfCat 128 host MQTT_PUB_TOPIC_TEMPERATURE

/-- `mqtt_publish`'s payload: `snprintf(szTemperature, 4, "%hhi", temperature)`.
`%hhi` renders the signed 8-bit value in decimal; the 4-byte buffer keeps at
most 3 characters plus the terminator, so the rendered string is truncated to
3 characters. -/
def szTemperature (t : Int) : String :=
  (toString t).take 3

/-- `mqtt_publish(temperature)`: format topic and payload, call
`mqttClient.publish` once, log success or failure, return. -/
def mqtt_publish (host : String) (t : Int) (pubOk : Bool) : List Event :=
  Event.publishAttempt (temperatureTopic host) (szTemperature t) pubOk ::
    (if pubOk then [Event.serialLine "Successfully published temperature"]
     else [Event.serialLine "Failed to publish temperature"])

/-! ## mqtt_reconnect -/

/-- The `aszRGBLedTopics` array in `mqtt_reconnect`. -/
def aszRGBLedTopics : List String :=
  [MQTT_SUB_TOPIC_RGB_LED_RED, MQTT_SUB_TOPIC_RGB_LED_GREEN, MQTT_SUB_TOPIC_RGB_LED_BLUE]

/-- Topic of the `i`-th subscription:
`snprintf(szMqttTopic, 128, "%s%s", hostname, aszRGBLedTopics[i])`. -/
def rgbTopic (host : String) (i : Nat) : String :=
  snprintfCat 128 host (aszRGBLedTopics.getD i "")

/-- The `for(i=0; i<3; i++)` subscription loop after a successful connect:
each of the three topics is subscribed once, and each outcome is logged
independently; a failure does not stop the loop. -/
def subscribeEvents (host : String) (subOk : Nat → Bool) : List Event :=
  (List.range 3).flatMap (fun i =>
    [Event.subscribeAttempt (rgbTopic host i) (subOk i),
     Event.serialOut
       (if subOk i then "Successfully subscribed to topic " else "Failed to subscribe to topic "),
     Event.serialLine (rgbTopic host i)])

/-- Events of one failed iteration of the `do ... while` body in
`mqtt_reconnect`: failed connect, log line, fixed 10 000 ms delay. -/
def failBlock (host : String) : List Event :=
  [Event.connectAttempt host false,
   Event.serialLine "Failed to connect to MQTT server",
   Event.delayMs MQTT_CONNECT_INTERVAL]

/-- Events of the successful iteration of the `do ... while` body in
`mqtt_reconnect`: successful connect, log line, the three subscriptions. -/
def successBlock (host : String) (subOk : Nat → Bool) : List Event :=
  Event.connectAttempt host true ::
    Event.serialLine "Successfully connected to MQTT server" ::
    subscribeEvents host subOk

/-- `mqtt_reconnect()` as a fuelled run of its `do ... while(!connected())`
loop.  `connectOk n` is the outcome of the `n`-th `mqttClient.connect` call,
`subOk i` the outcome of the `i`-th subscription after the successful
connect.  Returns the event trace and whether the loop has exited (i.e. the
client is connected); with insufficient fuel the returned flag is `false`
and the trace is the prefix performed so far — the real loop keeps running. -/
def mqtt_reconnect_run (connectOk : Nat → Bool) (subOk : Nat → Bool) (host : String) :
    Nat → Nat → List Event × Bool
  | 0, _ => ([], false)
  | fuel + 1, n =>
    if connectOk n then
      (successBlock host subOk, true)
    else
      let r := mqtt_reconnect_run connectOk subOk host fuel (n + 1)
      (failBlock host ++ r.1, r.2)

/-! ## mqtt_subscribe_callback -/

/-- The levels of the three RGB led pins (the actuator state);
`true` is HIGH.  The leds are low active, so HIGH means off. -/
structure RGBState where
  redHigh : Bool
  greenHigh : Bool
  blueHigh : Bool
deriving DecidableEq

/-- `mqtt_subscribe_callback(topic, payload, length)`: prints the topic,
`" => "`, then each payload byte as a character, then a newline.  `payload`
is the `length` bytes handed over by the transport (it is not
null-terminated).  The actuator state is threaded through explicitly to
record that the callback never touches it. -/
def mqtt_subscribe_callback (topic : String) (payload : List Nat) (s : RGBState) :
    RGBState × List Event :=
  (s, Event.serialOut topic :: Event.serialOut " => " ::
        (payload.map Event.serialChar ++ [Event.serialLine ""]))

/-! ## gpio_setup and setup -/

/-- `gpio_setup()`: boot button as input with pullup; each RGB led pin as
output and driven HIGH (led off, low active). -/
def gpio_setup : List Event :=
  [Event.pinModeSet PIN_BOOT_BUTTON PinMode.inputPullup,
   Event.pinModeSet PIN_RGB_LED_RED PinMode.outputPin,
   Event.digitalWrite PIN_RGB_LED_RED true,
   Event.pinModeSet PIN_RGB_LED_GREEN PinMode.outputPin,
   Event.digitalWrite PIN_RGB_LED_GREEN true,
   Event.pinModeSet PIN_RGB_LED_BLUE PinMode.outputPin,
   Event.digitalWrite PIN_RGB_LED_BLUE true]

/-- Marker events for the two external-collaborator setup calls made by
`setup()` after `gpio_setup()`: `wifi_setup()` (WiFiManager provisioning)
and `mqtt_setup()` (server address and callback registration). -/
inductive SetupCall where
  | gpioEvent (e : Event)
  | wifiSetupCall
  | mqttSetupCall
  | serialEvent (e : Event)
deriving DecidableEq

/-- `setup()`: serial banner and 3 s delay, then `gpio_setup()`, then
`wifi_setup()`, then `mqtt_setup()`. -/
def setup_trace : List SetupCall :=
  [SetupCall.serialEvent (Event.serialLine "Starting ESP32-C3 setup in 3s"),
   SetupCall.serialEvent (Event.delayMs 3000),
   SetupCall.serialEvent (Event.serialLine "Setting up ESP32-C3")] ++
  gpio_setup.map SetupCall.gpioEvent ++
  [SetupCall.wifiSetupCall, SetupCall.mqttSetupCall,
   SetupCall.serialEvent (Event.serialLine "Finished ESP32-C3 setup")]

/-- The recorded configuration of one GPIO pin: mode and output level, if
they have been set. -/
structure PinState where
  mode : Option PinMode
  levelHigh : Option Bool
deriving DecidableEq

/-- Effect of one event on the GPIO pin map. -/
def applyGpio (st : Nat → PinState) : Event → Nat → PinState
  | Event.pinModeSet p m => fun q => if q = p then { st q with mode := some m } else st q
  | Event.digitalWrite p h => fun q => if q = p then { st q with levelHigh := some h } else st q
  | _ => st

/-- GPIO pin map after a list of events. -/
def runGpio (st : Nat → PinState) (evs : List Event) : Nat → PinState :=
  evs.foldl applyGpio st

/-! ## The control loop -/

/-- Environment of one `loop()` iteration: what the hardware and network
return to the code during that pass. -/
structure Env where
  temperature : Int
  host : String
  wifiConnected : Bool
  ssid : String
  localIP : String
  rssi : Int
  connectOk : Nat → Bool
  subOk : Nat → Bool
  pubOk : Bool
  reconnectFuel : Nat

/-- Mutable state the loop carries across iterations: the global
`loop_counter` and the MQTT client's connectivity (`mqttClient.connected()`). -/
structure LoopState where
  loop_counter : Nat
  mqttConnected : Bool
deriving DecidableEq

/-- State at power-on: `loop_counter = 0`, client not connected. -/
def initialState : LoopState := { loop_counter := 0, mqttConnected := false }

/-- The serial status block printed on an action iteration: blank line,
WiFi status, temperature. -/
def statusEvents (env : Env) : List Event :=
  Event.serialLine "" ::
    ((if env.wifiConnected then
        [Event.serialOut "ESP32-C3 (hostname ", Event.serialOut env.host,
         Event.serialOut ") connected to ", Event.serialOut env.ssid,
         Event.serialOut " with ip ", Event.serialOut env.localIP,
         Event.serialOut " (rssi: ", Event.serialOut (toString env.rssi),
         Event.serialLine ")"]
      else [Event.serialLine "ESP32-C3 NOT connected"]) ++
     [Event.serialOut "ESP32-C3 temperature: ", Event.serialOut (toString env.temperature),
      Event.serialLine "°C"])

/-- `loop_counter++` followed by `if(loop_counter >= LOOP_COUNTER_RESET_VALUE)
loop_counter = 0;` — the increment is a `uint64_t` increment. -/
def nextCounter (c : Nat) : Nat :=
  let c1 := (c + 1) % UINT64_MOD
  if LOOP_COUNTER_RESET_VALUE ≤ c1 then 0 else c1

/-- One iteration of `loop()`.  If the counter is at the action value the
paced block runs: status output, blocking reconnect when disconnected, then
publish.  Every completed iteration then services inbound messages
(`mqttClient.loop()`), advances the counter and sleeps `LOOP_INTERVAL` ms.
Returns `none` when the blocking reconnect loop does not exit within the
environment's fuel — the real iteration never completes in that case. -/
def loop_step (env : Env) (s : LoopState) : Option (LoopState × List Event) :=
  let phase : Option (List Event × Bool) :=
    if s.loop_counter = LOOP_COUNTER_ACTION_VALUE then
      if s.mqttConnected then
        some (statusEvents env ++ mqtt_publish env.host env.temperature env.pubOk, true)
      else
        let r := mqtt_reconnect_run env.connectOk env.subOk env.host env.reconnectFuel 0
        if r.2 then
          some (statusEvents env ++ r.1 ++ mqtt_publish env.host env.temperature env.pubOk, true)
        else none
    else some ([], s.mqttConnected)
  match phase with
  | none => none
  | some (evs, conn) =>
    some ({ loop_counter := nextCounter s.loop_counter, mqttConnected := conn },
          evs ++ [Event.serviceInbound, Event.delayMs LOOP_INTERVAL])

/-- Run `loop()` once per environment in the list, threading the state. -/
def loop_iterate (envs : List Env) (s : LoopState) : Option LoopState :=
  match envs with
  | [] => some s
  | e :: rest =>
    match loop_step e s with
    | none => none
    | some (s2, _) => loop_iterate rest s2

/-! ## Connectivity tagging

The client's connectivity, as `mqttClient.connected()` reports it, changes
only at a `connect` call (within one single-threaded pass).  Tagging each
event of a trace with the connectivity in force when it is performed lets
us state which operations run while connected. -/

/-- Connectivity after an event: a connect call sets it to its outcome,
every other event leaves it unchanged. -/
def connAfter (c : Bool) : Event → Bool
  | Event.connectAttempt _ ok => ok
  | _ => c

/-- Connectivity after a whole trace. -/
def connFold (c : Bool) (evs : List Event) : Bool :=
  evs.foldl connAfter c

/-- Tag each event with the connectivity in force when it is performed
(i.e. before its own effect), starting from connectivity `c`. -/
def tagConn (c : Bool) : List Event → List (Event × Bool)
  | [] => []
  | e :: es => (e, c) :: tagConn (connAfter c e) es

/-! ## Decimal decoding (for the round-trip property)

The round-trip property reads the published payload back as a decimal
integer.  The decoder is standard decimal parsing: an optional leading
minus sign followed by at least one digit. -/

/-- Value of a decimal digit character, if it is one. -/
def digitVal (c : Char) : Option Nat :=
  if 48 ≤ c.toNat ∧ c.toNat ≤ 57 then some (c.toNat - 48) else none

/-- Fold decimal digits onto an accumulator; fails on a non-digit. -/
def decodeDigitsAux : Nat → List Char → Option Nat
  | acc, [] => some acc
  | acc, c :: cs =>
    match digitVal c with
    | none => none
    | some d => decodeDigitsAux (acc * 10 + d) cs

/-- Parse a non-empty digit string as a natural number. -/
def decodeDigits : List Char → Option Nat
  | [] => none
  | l => decodeDigitsAux 0 l

/-- Parse a string as a decimal integer: optional minus sign, then digits. -/
def decodeDecimal (s : String) : Option Int :=
  match s.data with
  | '-' :: rest => (decodeDigits rest).map (fun n => -(n : Int))
  | l => (decodeDigits l).map (fun n => (n : Int))

/-! ## Derived trace shapes and helpers for concrete instantiations -/

/-- `k` consecutive failed iterations of the reconnect loop. -/
def repeatedFail (host : String) : Nat → List Event
  | 0 => []
  | k + 1 => failBlock host ++ repeatedFail host k

/-- Is the setup step a GPIO configuration action of `gpio_setup()`? -/
def SetupCall.isGpio : SetupCall → Bool
  | .gpioEvent _ => true
  | _ => false

/-- Is the setup step one of the network/messaging setup calls
(`wifi_setup()` or `mqtt_setup()`)? -/
def SetupCall.isNetSetup : SetupCall → Bool
  | .wifiSetupCall => true
  | .mqttSetupCall => true
  | _ => false

/-- Concrete connect-outcome environment: the first attempt succeeds. -/
def cOkW : Nat → Bool := fun _ => true

/-- Concrete subscription-outcome environment: every subscription fails
(exercising the independent-failure path). -/
def sOkW : Nat → Bool := fun _ => false

/-- A concrete loop environment used to instantiate the theorems. -/
def envW : Env :=
  { temperature := 25, host := "h", wifiConnected := false, ssid := "", localIP := "",
    rssi := 0, connectOk := cOkW, subOk := fun _ => true, pubOk := true, reconnectFuel := 1 }

/-- A concrete loop environment whose publish fails. -/
def envF : Env :=
  { temperature := 25, host := "h", wifiConnected := false, ssid := "", localIP := "",
    rssi := 0, connectOk := cOkW, subOk := fun _ => true, pubOk := false, reconnectFuel := 1 }

/-- A concrete actuator state: all three channels HIGH (leds off). -/
def rgbW : RGBState := { redHigh := true, greenHigh := true, blueHigh := true }

/-- A concrete initial GPIO pin map: nothing configured yet. -/
def stW : Nat → PinState := fun _ => { mode := none, levelHigh := none }

/-- The event trace of the action iteration of `loop()` under `envW`
starting from counter 0 with the client already connected. -/
def evsW : List Event :=
  [Event.serialLine "", Event.serialLine "ESP32-C3 NOT connected",
   Event.serialOut "ESP32-C3 temperature: ", Event.serialOut "25", Event.serialLine "°C",
   Event.publishAttempt "h/Temperature" "25" true,
   Event.serialLine "Successfully published temperature",
   Event.serviceInbound, Event.delayMs LOOP_INTERVAL]

/-! # Helper lemmas -/

/-- `snprintf` truncation is the identity when the text fits the buffer. -/
theorem take_of_length_le (s : String) (n : Nat) (h : s.length ≤ n) : s.take n = s := by
  rw [String.take_eq]
  cases s with
  | mk data =>
    simp only [String.length] at h
    simp [List.take_of_length_le h]

/-- Trace of `mqtt_reconnect` when the first `k` connect attempts fail and
attempt `k` succeeds: `k` failure blocks, then the success block. -/
theorem run_first_success (cOk sOk : Nat → Bool) (host : String) :
    ∀ (k fuel n : Nat), (∀ i, i < k → cOk (n + i) = false) → cOk (n + k) = true → k < fuel →
      mqtt_reconnect_run cOk sOk host fuel n = (repeatedFail host k ++ successBlock host sOk, true)
  | _, 0, _, _, _, hfuel => absurd hfuel (Nat.not_lt_zero _)
  | 0, fuel + 1, n, _, hsucc, _ => by
    rw [Nat.add_zero] at hsucc
    simp [mqtt_reconnect_run, hsucc, repeatedFail]
  | k + 1, fuel + 1, n, hfail, hsucc, hfuel => by
    have h0 : cOk n = false := by simpa using hfail 0 (Nat.succ_pos k)
    have ih := run_first_success cOk sOk host k fuel (n + 1)
      (fun i hi => by
        have := hfail (i + 1) (by omega)
        simpa [Nat.add_comm, Nat.add_assoc, Nat.add_left_comm] using this)
      (by
        have : n + (k + 1) = n + 1 + k := by omega
        rw [this] at hsucc
        exact hsucc)
      (by omega)
    simp [mqtt_reconnect_run, h0, ih, repeatedFail, List.append_assoc]

/-- Trace of `mqtt_reconnect` while every connect attempt fails: one
failure block (with its 10 000 ms delay) per attempt, and the loop has not
exited. -/
theorem run_all_fail (cOk sOk : Nat → Bool) (host : String) (h : ∀ i, cOk i = false) :
    ∀ (fuel n : Nat), mqtt_reconnect_run cOk sOk host fuel n = (repeatedFail host fuel, false)
  | 0, _ => by simp [mqtt_reconnect_run, repeatedFail]
  | fuel + 1, n => by
    simp [mqtt_reconnect_run, h n, run_all_fail cOk sOk host h fuel (n + 1), repeatedFail]

/-- The subscription loop performs no publish. -/
theorem subscribeEvents_any_publish (host : String) (sOk : Nat → Bool) :
    (subscribeEvents host sOk).any Event.isPublish = false := rfl

/-- Failure iterations of the reconnect loop perform no publish. -/
theorem repeatedFail_any_publish (host : String) :
    ∀ k, (repeatedFail host k).any Event.isPublish = false
  | 0 => rfl
  | k + 1 => by
    simp [repeatedFail, failBlock, repeatedFail_any_publish host k, Event.isPublish]

/-- No iteration of `mqtt_reconnect`'s loop performs a publish. -/
theorem reconnect_run_any_publish (cOk sOk : Nat → Bool) (host : String) :
    ∀ (fuel n : Nat), (mqtt_reconnect_run cOk sOk host fuel n).1.any Event.isPublish = false
  | 0, _ => rfl
  | fuel + 1, n => by
    by_cases h : cOk n
    · simp [mqtt_reconnect_run, h, successBlock, Event.isPublish,
        subscribeEvents_any_publish]
    · simp only [Bool.not_eq_true] at h
      simp [mqtt_reconnect_run, h, failBlock, Event.isPublish,
        reconnect_run_any_publish cOk sOk host fuel (n + 1)]

/-! # Claims -/

/-- C1 (code bug): the spec demands that for every temperature in
[-128, 127] the published payload decodes back to the same integer and that
the encoding buffer holds sign + up to 3 digits + terminator.  The code's
buffer is `char szTemperature[4]`, one byte short, so `snprintf` truncates
every value in [-128, -100]: at the failing input -128 the published
payload is `"-12"`, which decodes to -12, not -128. -/
theorem szTemperature_truncates_at_minus128 :
    szTemperature (-128) = "-12" ∧
    decodeDecimal (szTemperature (-128)) = some (-12) ∧
    ((-12 : Int) ≠ -128) ∧
    (mqtt_publish "esp32" (-128) true).filter Event.isPublish =
      [Event.publishAttempt ("esp32" ++ MQTT_PUB_TOPIC_TEMPERATURE) "-12" true] := by
  refine ⟨by decide, by decide, by decide, by decide⟩

/-- C2: `mqtt_reconnect` repeats connect attempts until one succeeds —
each failed attempt is followed by the fixed `MQTT_CONNECT_INTERVAL`
(10 000 ms) delay of `failBlock` — and the function returns (flag `true`)
only once an attempt has succeeded; while every attempt fails the loop
keeps retrying and does not exit. -/
theorem mqtt_reconnect_blocks_until_connected :
    (∀ (cOk sOk : Nat → Bool) (host : String) (k fuel : Nat),
        (∀ i, i < k → cOk i = false) → cOk k = true → k < fuel →
        mqtt_reconnect_run cOk sOk host fuel 0 =
          (repeatedFail host k ++ successBlock host sOk, true)) ∧
    (∀ (cOk sOk : Nat → Bool) (host : String) (fuel : Nat),
        (∀ i, cOk i = false) →
        mqtt_reconnect_run cOk sOk host fuel 0 = (repeatedFail host fuel, false)) := by
  constructor
  · intro cOk sOk host k fuel hfail hsucc hfuel
    exact run_first_success cOk sOk host k fuel 0
      (fun i hi => by simpa using hfail i hi) (by simpa using hsucc) hfuel
  · intro cOk sOk host fuel h
    exact run_all_fail cOk sOk host h fuel 0

/-- Witness for C2: with a first attempt that succeeds, the loop exits at
once with the success block. -/
theorem mqtt_reconnect_blocks_until_connected_witness :
    cOkW 0 = true ∧ (0 : Nat) < 1 ∧
    mqtt_reconnect_run cOkW sOkW "h" 1 0 = (repeatedFail "h" 0 ++ successBlock "h" sOkW, true) :=
  ⟨rfl, by decide,
    mqtt_reconnect_blocks_until_connected.1 cOkW sOkW "h" 0 1
      (fun i hi => absurd hi (Nat.not_lt_zero i)) rfl (by decide)⟩

/-- C8: no execution of `mqtt_reconnect`'s retry loop performs a publish:
its trace — whether the loop has exited or is still retrying — contains no
publish operation. -/
theorem mqtt_reconnect_never_publishes (cOk sOk : Nat → Bool) (host : String)
    (fuel n : Nat) :
    (mqtt_reconnect_run cOk sOk host fuel n).1.any Event.isPublish = false :=
  reconnect_run_any_publish cOk sOk host fuel n

/-- Failure iterations of the reconnect loop contain no subscribe call. -/
theorem repeatedFail_filterMap_subscribe (host : String) :
    ∀ k, (repeatedFail host k).filterMap subscribeTarget = []
  | 0 => rfl
  | k + 1 => by
    simp [repeatedFail, failBlock, subscribeTarget,
      repeatedFail_filterMap_subscribe host k]

/-- The success block subscribes exactly to the three formatted topics, in
array order, whatever the subscription outcomes are. -/
theorem successBlock_subscribe_targets (host : String) (sOk : Nat → Bool) :
    (successBlock host sOk).filterMap subscribeTarget =
      [rgbTopic host 0, rgbTopic host 1, rgbTopic host 2] := rfl

/-- `snprintf`-style concatenation is plain concatenation when the result
fits the buffer. -/
theorem snprintfCat_eq (size : Nat) (a b : String) (h : a.length + b.length ≤ size - 1) :
    snprintfCat size a b = a ++ b := by
  unfold snprintfCat
  exact take_of_length_le (a ++ b) (size - 1) (by rw [String.length_append]; exact h)

/-- With a hostname short enough for the 128-byte topic buffer, the
formatted topics are exactly hostname ++ suffix. -/
theorem rgbTopic_eq_append (host : String) (hlen : host.length ≤ 113) :
    rgbTopic host 0 = host ++ MQTT_SUB_TOPIC_RGB_LED_RED ∧
    rgbTopic host 1 = host ++ MQTT_SUB_TOPIC_RGB_LED_GREEN ∧
    rgbTopic host 2 = host ++ MQTT_SUB_TOPIC_RGB_LED_BLUE := by
  have hr : MQTT_SUB_TOPIC_RGB_LED_RED.length = 12 := by decide
  have hg : MQTT_SUB_TOPIC_RGB_LED_GREEN.length = 14 := by decide
  have hb : MQTT_SUB_TOPIC_RGB_LED_BLUE.length = 13 := by decide
  exact ⟨snprintfCat_eq 128 host MQTT_SUB_TOPIC_RGB_LED_RED (by omega),
    snprintfCat_eq 128 host MQTT_SUB_TOPIC_RGB_LED_GREEN (by omega),
    snprintfCat_eq 128 host MQTT_SUB_TOPIC_RGB_LED_BLUE (by omega)⟩

/-- C3: whenever a connect attempt inside `mqtt_reconnect` succeeds, the
client subscribes exactly once to each of the three command topics
`<host>/RGB-Led/Red`, `<host>/RGB-Led/Green`, `<host>/RGB-Led/Blue` (three
pairwise-distinct topics, one subscribe call each, in that order), for
every combination of subscription outcomes `sOk` — so a failed subscription
aborts neither the remaining subscriptions nor the connection, and the run
still exits connected. -/
theorem mqtt_reconnect_subscribes_three_topics_once (cOk sOk : Nat → Bool)
    (host : String) (k fuel : Nat)
    (hfail : ∀ i, i < k → cOk i = false) (hsucc : cOk k = true) (hfuel : k < fuel)
    (hlen : host.length ≤ 113) :
    (mqtt_reconnect_run cOk sOk host fuel 0).1.filterMap subscribeTarget =
      [host ++ MQTT_SUB_TOPIC_RGB_LED_RED, host ++ MQTT_SUB_TOPIC_RGB_LED_GREEN,
       host ++ MQTT_SUB_TOPIC_RGB_LED_BLUE] ∧
    host ++ MQTT_SUB_TOPIC_RGB_LED_RED ≠ host ++ MQTT_SUB_TOPIC_RGB_LED_GREEN ∧
    host ++ MQTT_SUB_TOPIC_RGB_LED_RED ≠ host ++ MQTT_SUB_TOPIC_RGB_LED_BLUE ∧
    host ++ MQTT_SUB_TOPIC_RGB_LED_GREEN ≠ host ++ MQTT_SUB_TOPIC_RGB_LED_BLUE ∧
    (mqtt_reconnect_run cOk sOk host fuel 0).2 = true := by
  have hrun := run_first_success cOk sOk host k fuel 0
    (fun i hi => by simpa using hfail i hi) (by simpa using hsucc) hfuel
  have hlenR : MQTT_SUB_TOPIC_RGB_LED_RED.length = 12 := by decide
  have hlenG : MQTT_SUB_TOPIC_RGB_LED_GREEN.length = 14 := by decide
  have hlenB : MQTT_SUB_TOPIC_RGB_LED_BLUE.length = 13 := by decide
  obtain ⟨h0, h1, h2⟩ := rgbTopic_eq_append host hlen
  refine ⟨?_, ?_, ?_, ?_, by rw [hrun]⟩
  · rw [hrun]
    simp only [List.filterMap_append, repeatedFail_filterMap_subscribe,
      successBlock_subscribe_targets, List.nil_append]
    rw [h0, h1, h2]
  · intro hcontra
    have := congrArg String.length hcontra
    rw [String.length_append, String.length_append] at this
    omega
  · intro hcontra
    have := congrArg String.length hcontra
    rw [String.length_append, String.length_append] at this
    omega
  · intro hcontra
    have := congrArg String.length hcontra
    rw [String.length_append, String.length_append] at this
    omega

/-- Witness for C3: first attempt succeeds, every subscription fails, and
the three subscribe calls still happen, once each. -/
theorem mqtt_reconnect_subscribes_three_topics_once_witness :
    cOkW 0 = true ∧ (0 : Nat) < 1 ∧ ("h" : String).length ≤ 113 ∧
    (mqtt_reconnect_run cOkW sOkW "h" 1 0).1.filterMap subscribeTarget =
      ["h" ++ MQTT_SUB_TOPIC_RGB_LED_RED, "h" ++ MQTT_SUB_TOPIC_RGB_LED_GREEN,
       "h" ++ MQTT_SUB_TOPIC_RGB_LED_BLUE] :=
  ⟨rfl, by decide, by decide,
    (mqtt_reconnect_subscribes_three_topics_once cOkW sOkW "h" 0 1
      (fun i hi => absurd hi (Nat.not_lt_zero i)) rfl (by decide) (by decide)).1⟩

/-- Every completed `loop()` iteration services inbound messages and
advances the counter — whatever the publish outcome was. -/
theorem loop_step_completes (env : Env) (s s2 : LoopState) (evs : List Event)
    (hstep : loop_step env s = some (s2, evs)) :
    Event.serviceInbound ∈ evs ∧ s2.loop_counter = nextCounter s.loop_counter := by
  unfold loop_step at hstep
  by_cases hc : s.loop_counter = LOOP_COUNTER_ACTION_VALUE
  · rw [if_pos hc] at hstep
    by_cases hm : s.mqttConnected
    · rw [if_pos hm] at hstep
      simp only [Option.some.injEq, Prod.mk.injEq] at hstep
      obtain ⟨hs2, hevs⟩ := hstep
      subst hevs
      refine ⟨by simp, by rw [← hs2]⟩
    · rw [if_neg hm] at hstep
      by_cases hr : (mqtt_reconnect_run env.connectOk env.subOk env.host env.reconnectFuel 0).2
      · rw [if_pos hr] at hstep
        simp only [Option.some.injEq, Prod.mk.injEq] at hstep
        obtain ⟨hs2, hevs⟩ := hstep
        subst hevs
        refine ⟨by simp, by rw [← hs2]⟩
      · rw [if_neg hr] at hstep
        exact absurd hstep (by simp)
  · rw [if_neg hc] at hstep
    simp only [Option.some.injEq, Prod.mk.injEq] at hstep
    obtain ⟨hs2, hevs⟩ := hstep
    subst hevs
    refine ⟨by simp, by rw [← hs2]⟩

/-- C7: `mqtt_publish` performs exactly one publish per call, on the topic
hostname ++ "/Temperature" (exactly that string whenever the hostname fits
the 128-byte buffer); on failure it performs that single attempt, logs the
failure and returns, with no retry; and a failed publish does not abort the
loop iteration: the iteration still services inbound messages and advances
the counter. -/
theorem mqtt_publish_one_message_no_retry (host : String) (t : Int) (ok : Bool) :
    (mqtt_publish host t ok).filter Event.isPublish =
      [Event.publishAttempt (temperatureTopic host) (szTemperature t) ok] ∧
    (host.length ≤ 115 → temperatureTopic host = host ++ MQTT_PUB_TOPIC_TEMPERATURE) ∧
    mqtt_publish host t false =
      [Event.publishAttempt (temperatureTopic host) (szTemperature t) false,
       Event.serialLine "Failed to publish temperature"] ∧
    (∀ (env : Env) (s s2 : LoopState) (evs : List Event),
        env.pubOk = false → loop_step env s = some (s2, evs) →
        Event.serviceInbound ∈ evs ∧ s2.loop_counter = nextCounter s.loop_counter) := by
  refine ⟨?_, ?_, rfl, ?_⟩
  · cases ok <;> rfl
  · intro hlen
    have h12 : MQTT_PUB_TOPIC_TEMPERATURE.length = 12 := by decide
    exact snprintfCat_eq 128 host MQTT_PUB_TOPIC_TEMPERATURE (by omega)
  · intro env s s2 evs _ hstep
    exact loop_step_completes env s s2 evs hstep

/-- Witness for C7: concrete hostname and a failed publish inside a loop
iteration. -/
theorem mqtt_publish_one_message_no_retry_witness :
    ("esp32" : String).length ≤ 115 ∧
    temperatureTopic "esp32" = "esp32" ++ MQTT_PUB_TOPIC_TEMPERATURE ∧
    envF.pubOk = false ∧
    loop_step envF { loop_counter := 1, mqttConnected := true } =
      some ({ loop_counter := 2, mqttConnected := true },
            [Event.serviceInbound, Event.delayMs LOOP_INTERVAL]) ∧
    Event.serviceInbound ∈ [Event.serviceInbound, Event.delayMs LOOP_INTERVAL] :=
  ⟨by decide, (mqtt_publish_one_message_no_retry "esp32" 0 true).2.1 (by decide), rfl,
    by decide,
    ((mqtt_publish_one_message_no_retry "esp32" 0 true).2.2.2 envF
      { loop_counter := 1, mqttConnected := true }
      { loop_counter := 2, mqttConnected := true }
      [Event.serviceInbound, Event.delayMs LOOP_INTERVAL] rfl (by decide)).1⟩

/-- Every event the dispatch callback performs is serial output: no GPIO
write, no publish, no subscribe, no connect. -/
theorem callback_events_serial (topic : String) (payload : List Nat) (s : RGBState) :
    ∀ e ∈ (mqtt_subscribe_callback topic payload s).2,
      e.isGpioWrite = false ∧ e.isPublish = false ∧ e.isSubscribe = false ∧
        e.isConnect = false := by
  intro e he
  simp only [mqtt_subscribe_callback, List.mem_cons, List.mem_append, List.mem_map,
    List.mem_singleton] at he
  rcases he with rfl | rfl | ⟨b, _, rfl⟩ | rfl | hnil
  · exact ⟨rfl, rfl, rfl, rfl⟩
  · exact ⟨rfl, rfl, rfl, rfl⟩
  · exact ⟨rfl, rfl, rfl, rfl⟩
  · exact ⟨rfl, rfl, rfl, rfl⟩
  · exact absurd hnil (List.not_mem_nil e)

/-- C6: for every inbound message — any topic string, any payload byte
sequence of any length — the dispatch path `mqtt_subscribe_callback` is a
total function (it cannot crash), leaves the prior actuator state
unchanged, and performs no GPIO write, no reconnect and no publish (nor a
subscribe): its whole effect is serial echo output. -/
theorem dispatch_never_changes_state_or_connects (topic : String) (payload : List Nat)
    (s : RGBState) :
    (mqtt_subscribe_callback topic payload s).1 = s ∧
    ((mqtt_subscribe_callback topic payload s).2.any
      (fun e => e.isGpioWrite || e.isPublish || e.isSubscribe || e.isConnect)) = false := by
  refine ⟨rfl, ?_⟩
  rw [List.any_eq_false]
  intro e he
  have h := callback_events_serial topic payload s e he
  simp [h.1, h.2.1, h.2.2.1, h.2.2.2]

/-- C5 counterexample: a valid command for the Red channel — topic
`esp32/RGB-Led/Red`, payload the single ASCII byte "1" — is not routed to
the Red Actuator Driver: the dispatch performs no GPIO write at all, in
particular none on the red pin (pin 3), and returns the actuator state
unchanged.  This refutes "the Command Router routes it only to the Red
Actuator Driver": nothing is routed to any driver. -/
theorem red_command_not_routed_to_red_driver :
    ((mqtt_subscribe_callback ("esp32" ++ MQTT_SUB_TOPIC_RGB_LED_RED) [49] rgbW).2.any
      Event.isGpioWrite) = false ∧
    Event.digitalWrite PIN_RGB_LED_RED false ∉
      (mqtt_subscribe_callback ("esp32" ++ MQTT_SUB_TOPIC_RGB_LED_RED) [49] rgbW).2 ∧
    Event.digitalWrite PIN_RGB_LED_RED true ∉
      (mqtt_subscribe_callback ("esp32" ++ MQTT_SUB_TOPIC_RGB_LED_RED) [49] rgbW).2 ∧
    (mqtt_subscribe_callback ("esp32" ++ MQTT_SUB_TOPIC_RGB_LED_RED) [49] rgbW).1 = rgbW := by
  refine ⟨by decide, by decide, by decide, by decide⟩

/-- C5 (amended): when a valid command message for the Red channel arrives,
the dispatch path changes no actuator state at all — it performs no GPIO
write, and the Green and Blue (and Red) channels remain unchanged — because
the callback only echoes the message to the serial log. -/
theorem red_command_leaves_all_actuators_unchanged (host : String) (payload : List Nat)
    (s : RGBState) :
    (mqtt_subscribe_callback (host ++ MQTT_SUB_TOPIC_RGB_LED_RED) payload s).1 = s ∧
    ((mqtt_subscribe_callback (host ++ MQTT_SUB_TOPIC_RGB_LED_RED) payload s).2.any
      Event.isGpioWrite) = false := by
  refine ⟨rfl, ?_⟩
  rw [List.any_eq_false]
  intro e he
  have h := callback_events_serial (host ++ MQTT_SUB_TOPIC_RGB_LED_RED) payload s e he
  simp [h.1]

/-- C10: after `gpio_setup` the three RGB led pins (red = 3, green = 4,
blue = 5) are configured as outputs and driven HIGH — so the low-active
indicator starts with all three channels off — whatever the pins'
configuration was before; and within `setup()` every GPIO configuration
step precedes the WiFi and MQTT setup calls, so this state is established
before any network or messaging activity begins. -/
theorem gpio_setup_leds_off (st : Nat → PinState) :
    runGpio st gpio_setup PIN_RGB_LED_RED =
      { mode := some PinMode.outputPin, levelHigh := some true } ∧
    runGpio st gpio_setup PIN_RGB_LED_GREEN =
      { mode := some PinMode.outputPin, levelHigh := some true } ∧
    runGpio st gpio_setup PIN_RGB_LED_BLUE =
      { mode := some PinMode.outputPin, levelHigh := some true } ∧
    (∀ i j : Fin setup_trace.length,
      (setup_trace.get i).isGpio = true → (setup_trace.get j).isNetSetup = true →
      (i : Nat) < (j : Nat)) := by
  refine ⟨rfl, rfl, rfl, by decide⟩

/-- Witness for C10 at a concrete pin map and concrete trace positions. -/
theorem gpio_setup_leds_off_witness :
    (setup_trace.get ⟨3, by decide⟩).isGpio = true ∧
    (setup_trace.get ⟨10, by decide⟩).isNetSetup = true ∧
    (3 : Nat) < 10 ∧
    runGpio stW gpio_setup PIN_RGB_LED_RED =
      { mode := some PinMode.outputPin, levelHigh := some true } :=
  ⟨by decide, by decide,
    (gpio_setup_leds_off stW).2.2.2 ⟨3, by decide⟩ ⟨10, by decide⟩ (by decide) (by decide),
    (gpio_setup_leds_off stW).1⟩

/-! ## Connectivity-tagging lemmas -/

/-- Tagging splits over concatenation, the second part starting from the
connectivity the first part left behind. -/
theorem tagConn_append (c : Bool) (xs ys : List Event) :
    tagConn c (xs ++ ys) = tagConn c xs ++ tagConn (connFold c xs) ys := by
  induction xs generalizing c with
  | nil => rfl
  | cons e es ih => simp [tagConn, connFold, ih]

/-- A tagged pair's event belongs to the underlying trace. -/
theorem mem_tagConn_fst (c : Bool) (xs : List Event) (p : Event × Bool)
    (hp : p ∈ tagConn c xs) : p.1 ∈ xs := by
  induction xs generalizing c with
  | nil => simp [tagConn] at hp
  | cons e es ih =>
    simp only [tagConn, List.mem_cons] at hp
    rcases hp with rfl | hp
    · simp
    · exact List.mem_cons_of_mem e (ih (connAfter c e) hp)

/-- Over a trace without connect calls, every event carries the initial
connectivity tag. -/
theorem tagConn_tags_of_no_connect (xs : List Event) :
    ∀ (c : Bool), (∀ e ∈ xs, e.isConnect = false) → ∀ p ∈ tagConn c xs, p.2 = c := by
  induction xs with
  | nil => intro c _ p hp; simp [tagConn] at hp
  | cons e es ih =>
    intro c h p hp
    have hce : connAfter c e = c := by
      cases e <;> first
        | rfl
        | exact absurd (h _ (List.mem_cons_self _ _)) (by simp [Event.isConnect])
    simp only [tagConn, List.mem_cons] at hp
    rcases hp with rfl | hp
    · rfl
    · rw [hce] at hp
      exact ih c (fun e2 he2 => h e2 (List.mem_cons_of_mem e he2)) p hp

/-- A trace without connect calls leaves the connectivity unchanged. -/
theorem connFold_of_no_connect (xs : List Event) :
    ∀ (c : Bool), (∀ e ∈ xs, e.isConnect = false) → connFold c xs = c := by
  induction xs with
  | nil => intro c _; rfl
  | cons e es ih =>
    intro c h
    have hce : connAfter c e = c := by
      cases e <;> first
        | rfl
        | exact absurd (h _ (List.mem_cons_self _ _)) (by simp [Event.isConnect])
    show connFold (connAfter c e) es = c
    rw [hce]
    exact ih c (fun e2 he2 => h e2 (List.mem_cons_of_mem e he2))

/-- Over a segment with no publish and no subscribe, the tagged
publish/subscribe condition holds vacuously. -/
theorem tagConn_segment_vacuous (c : Bool) (xs : List Event)
    (h : ∀ e ∈ xs, e.isPublish = false ∧ e.isSubscribe = false)
    (p : Event × Bool) (hp : p ∈ tagConn c xs)
    (hps : (p.1.isPublish || p.1.isSubscribe) = true) : p.2 = true := by
  have h2 := h p.1 (mem_tagConn_fst c xs p hp)
  rw [h2.1, h2.2] at hps
  exact absurd hps (by simp)

/-- The status block of the action iteration is serial-only output. -/
theorem statusEvents_all_serial (env : Env) :
    (statusEvents env).all
      (fun e => !e.isConnect && !e.isPublish && !e.isSubscribe) = true := by
  cases h : env.wifiConnected
  · unfold statusEvents
    rw [h]
    rfl
  · unfold statusEvents
    rw [h]
    rfl

/-- Membership form of `statusEvents_all_serial`. -/
theorem statusEvents_facts (env : Env) :
    ∀ e ∈ statusEvents env,
      e.isConnect = false ∧ e.isPublish = false ∧ e.isSubscribe = false := by
  intro e he
  have h := List.all_eq_true.mp (statusEvents_all_serial env) e he
  simp only [Bool.and_eq_true, Bool.not_eq_eq_eq_not, Bool.not_true] at h
  exact ⟨h.1.1, h.1.2, h.2⟩

/-- `mqtt_publish` performs no connect call (boolean form). -/
theorem mqtt_publish_all_no_connect (host : String) (t : Int) (ok : Bool) :
    (mqtt_publish host t ok).all (fun e => !e.isConnect) = true := by
  cases ok <;> rfl

/-- `mqtt_publish` performs no connect call. -/
theorem mqtt_publish_no_connect (host : String) (t : Int) (ok : Bool) :
    ∀ e ∈ mqtt_publish host t ok, e.isConnect = false := by
  intro e he
  have h := List.all_eq_true.mp (mqtt_publish_all_no_connect host t ok) e he
  simpa using h

/-- The subscription loop performs no connect call. -/
theorem subscribeEvents_all_no_connect (host : String) (sOk : Nat → Bool) :
    (subscribeEvents host sOk).all (fun e => !e.isConnect) = true := rfl

/-- The tail of the success block (log line plus subscriptions) performs no
connect call. -/
theorem successBlock_tail_no_connect (host : String) (sOk : Nat → Bool) :
    ∀ e ∈ Event.serialLine "Successfully connected to MQTT server" ::
        subscribeEvents host sOk, e.isConnect = false := by
  intro e he
  rcases List.mem_cons.mp he with rfl | he2
  · rfl
  · have h := List.all_eq_true.mp (subscribeEvents_all_no_connect host sOk) e he2
    simpa using h

/-- Connectivity after a concatenation. -/
theorem connFold_append (c : Bool) (xs ys : List Event) :
    connFold c (xs ++ ys) = connFold (connFold c xs) ys := by
  unfold connFold
  rw [List.foldl_append]

/-- Inside `mqtt_reconnect`'s trace, every publish or subscribe call is
tagged with connectivity `true`, and the connectivity after the trace is
exactly the returned exit flag. -/
theorem reconnect_tags (cOk sOk : Nat → Bool) (host : String) :
    ∀ (fuel n : Nat),
      (∀ p ∈ tagConn false (mqtt_reconnect_run cOk sOk host fuel n).1,
        (p.1.isPublish || p.1.isSubscribe) = true → p.2 = true) ∧
      connFold false (mqtt_reconnect_run cOk sOk host fuel n).1 =
        (mqtt_reconnect_run cOk sOk host fuel n).2
  | 0, n => ⟨fun p hp => by simp [mqtt_reconnect_run, tagConn] at hp, rfl⟩
  | fuel + 1, n => by
    by_cases h : cOk n
    · have htr : mqtt_reconnect_run cOk sOk host (fuel + 1) n =
          (successBlock host sOk, true) := by
        simp [mqtt_reconnect_run, h]
      constructor
      · intro p hp hps
        have hp2 : p ∈ (Event.connectAttempt host true, false) ::
            tagConn true (Event.serialLine "Successfully connected to MQTT server" ::
              subscribeEvents host sOk) := by
          rw [htr] at hp
          exact hp
        rcases List.mem_cons.mp hp2 with rfl | hp3
        · exact absurd hps (by simp [Event.isPublish, Event.isSubscribe])
        · exact tagConn_tags_of_no_connect _ true (successBlock_tail_no_connect host sOk) p hp3
      · rw [htr]
        show connFold true (Event.serialLine "Successfully connected to MQTT server" ::
          subscribeEvents host sOk) = true
        exact connFold_of_no_connect _ true (successBlock_tail_no_connect host sOk)
    · have h2 : cOk n = false := by simpa using h
      have htr : mqtt_reconnect_run cOk sOk host (fuel + 1) n =
          (failBlock host ++ (mqtt_reconnect_run cOk sOk host fuel (n + 1)).1,
           (mqtt_reconnect_run cOk sOk host fuel (n + 1)).2) := by
        simp [mqtt_reconnect_run, h2]
      have ih := reconnect_tags cOk sOk host fuel (n + 1)
      constructor
      · intro p hp hps
        have hp2 : p ∈ tagConn false
            (failBlock host ++ (mqtt_reconnect_run cOk sOk host fuel (n + 1)).1) := by
          rw [htr] at hp
          exact hp
        rw [tagConn_append] at hp2
        rcases List.mem_append.mp hp2 with hpA | hpB
        · refine tagConn_segment_vacuous false (failBlock host) ?_ p hpA hps
          intro e he
          rcases List.mem_cons.mp he with rfl | he2
          · exact ⟨rfl, rfl⟩
          · rcases List.mem_cons.mp he2 with rfl | he3
            · exact ⟨rfl, rfl⟩
            · rcases List.mem_singleton.mp he3 with rfl
              exact ⟨rfl, rfl⟩
        · have hcf : connFold false (failBlock host) = false := rfl
          rw [hcf] at hpB
          exact ih.1 p hpB hps
      · rw [htr]
        show connFold false (failBlock host ++ _) = _
        rw [connFold_append]
        have hcf : connFold false (failBlock host) = false := rfl
        rw [hcf]
        exact ih.2

/-- The iteration tail (`mqttClient.loop()` and the sleep) has no publish
and no subscribe. -/
theorem loop_tail_no_pubsub :
    ∀ e ∈ [Event.serviceInbound, Event.delayMs LOOP_INTERVAL],
      e.isPublish = false ∧ e.isSubscribe = false := by
  intro e he
  rcases List.mem_cons.mp he with rfl | he2
  · exact ⟨rfl, rfl⟩
  · rcases List.mem_singleton.mp he2 with rfl
    exact ⟨rfl, rfl⟩

/-- C4: the messaging client's publish and subscribe operations are never
invoked while its connectivity state is Disconnected.  In every completed
`loop()` iteration, tagging the trace with the connectivity in force at
each step (starting from the iteration's initial state), every publish and
every subscribe event carries the tag `true`: a disconnected client is
reconnected synchronously — blocking until Connected — before the publish. -/
theorem mqtt_ops_only_when_connected (env : Env) (s s2 : LoopState) (evs : List Event)
    (hstep : loop_step env s = some (s2, evs)) :
    ∀ p ∈ tagConn s.mqttConnected evs,
      (p.1.isPublish || p.1.isSubscribe) = true → p.2 = true := by
  intro p hp hps
  unfold loop_step at hstep
  by_cases hc : s.loop_counter = LOOP_COUNTER_ACTION_VALUE
  · rw [if_pos hc] at hstep
    by_cases hm : s.mqttConnected = true
    · rw [if_pos hm] at hstep
      simp only [Option.some.injEq, Prod.mk.injEq] at hstep
      obtain ⟨_, hevs⟩ := hstep
      subst hevs
      rw [hm] at hp
      rw [tagConn_append, tagConn_append] at hp
      have hst : connFold true (statusEvents env) = true :=
        connFold_of_no_connect _ _ (fun e he => (statusEvents_facts env e he).1)
      rcases List.mem_append.mp hp with hp0 | hp3
      · rcases List.mem_append.mp hp0 with hp1 | hp2
        · exact tagConn_segment_vacuous true (statusEvents env)
            (fun e he => ⟨(statusEvents_facts env e he).2.1,
              (statusEvents_facts env e he).2.2⟩) p hp1 hps
        · rw [hst] at hp2
          exact tagConn_tags_of_no_connect _ true
            (mqtt_publish_no_connect env.host env.temperature env.pubOk) p hp2
      · exact tagConn_segment_vacuous _ _ loop_tail_no_pubsub p hp3 hps
    · rw [if_neg hm] at hstep
      have hm2 : s.mqttConnected = false := by simpa using hm
      by_cases hr : (mqtt_reconnect_run env.connectOk env.subOk env.host env.reconnectFuel 0).2
      · rw [if_pos hr] at hstep
        simp only [Option.some.injEq, Prod.mk.injEq] at hstep
        obtain ⟨_, hevs⟩ := hstep
        subst hevs
        rw [hm2] at hp
        rw [tagConn_append, tagConn_append, tagConn_append] at hp
        have hst : connFold false (statusEvents env) = false :=
          connFold_of_no_connect _ _ (fun e he => (statusEvents_facts env e he).1)
        have hrt := reconnect_tags env.connectOk env.subOk env.host env.reconnectFuel 0
        have hcf2 : connFold false
            (statusEvents env ++
              (mqtt_reconnect_run env.connectOk env.subOk env.host env.reconnectFuel 0).1) =
            true := by
          rw [connFold_append, hst, hrt.2]
          exact hr
        rcases List.mem_append.mp hp with hp0 | hp4
        · rcases List.mem_append.mp hp0 with hp1 | hp23
          · rcases List.mem_append.mp hp1 with hpA | hpB
            · exact tagConn_segment_vacuous false (statusEvents env)
                (fun e he => ⟨(statusEvents_facts env e he).2.1,
                  (statusEvents_facts env e he).2.2⟩) p hpA hps
            · rw [hst] at hpB
              exact hrt.1 p hpB hps
          · rw [hcf2] at hp23
            exact tagConn_tags_of_no_connect _ true
              (mqtt_publish_no_connect env.host env.temperature env.pubOk) p hp23
        · exact tagConn_segment_vacuous _ _ loop_tail_no_pubsub p hp4 hps
      · rw [if_neg hr] at hstep
        exact absurd hstep (by simp)
  · rw [if_neg hc] at hstep
    simp only [Option.some.injEq, Prod.mk.injEq] at hstep
    obtain ⟨_, hevs⟩ := hstep
    subst hevs
    refine tagConn_segment_vacuous _ _ ?_ p hp hps
    intro e he
    rcases List.mem_append.mp he with hnil | he2
    · exact absurd hnil (List.not_mem_nil e)
    · exact loop_tail_no_pubsub e he2

/-- Witness for C4: a concrete action iteration whose publish is tagged
with connectivity `true`. -/
theorem mqtt_ops_only_when_connected_witness :
    loop_step envW { loop_counter := 0, mqttConnected := true } =
      some ({ loop_counter := 1, mqttConnected := true }, evsW) ∧
    (Event.publishAttempt "h/Temperature" "25" true, true) ∈ tagConn true evsW ∧
    ((Event.publishAttempt "h/Temperature" "25" true).isPublish ||
      (Event.publishAttempt "h/Temperature" "25" true).isSubscribe) = true ∧
    ((Event.publishAttempt "h/Temperature" "25" true, true) : Event × Bool).2 = true :=
  ⟨by decide, by decide, by decide,
    mqtt_ops_only_when_connected envW { loop_counter := 0, mqttConnected := true }
      { loop_counter := 1, mqttConnected := true } evsW (by decide)
      (Event.publishAttempt "h/Temperature" "25" true, true) (by decide) (by decide)⟩

/-! ## Loop-phase-counter lemmas -/

/-- The counter update always lands strictly below the wrap value. -/
theorem nextCounter_lt (c : Nat) : nextCounter c < LOOP_COUNTER_RESET_VALUE := by
  show (if LOOP_COUNTER_RESET_VALUE ≤ (c + 1) % UINT64_MOD then 0
    else (c + 1) % UINT64_MOD) < LOOP_COUNTER_RESET_VALUE
  split
  · decide
  · next h => omega

/-- Counters below the wrap value stay below it across any run of
completed iterations. -/
theorem loop_iterate_lt (envs : List Env) :
    ∀ (s s2 : LoopState), s.loop_counter < LOOP_COUNTER_RESET_VALUE →
      loop_iterate envs s = some s2 → s2.loop_counter < LOOP_COUNTER_RESET_VALUE := by
  induction envs with
  | nil =>
    intro s s2 hs hit
    simp only [loop_iterate, Option.some.injEq] at hit
    rw [← hit]
    exact hs
  | cons e rest ih =>
    intro s s2 hs hit
    simp only [loop_iterate] at hit
    cases hstep : loop_step e s with
    | none => rw [hstep] at hit; exact absurd hit (by simp)
    | some pr =>
      obtain ⟨s3, evs3⟩ := pr
      rw [hstep] at hit
      have h1 : s3.loop_counter < LOOP_COUNTER_RESET_VALUE := by
        rw [(loop_step_completes e s s3 evs3 hstep).2]
        exact nextCounter_lt s.loop_counter
      exact ih s3 s2 h1 hit

/-- A completed iteration contains a publish call exactly when its counter
was at the action value. -/
theorem loop_step_publish_iff (env : Env) (s s2 : LoopState) (evs : List Event)
    (hstep : loop_step env s = some (s2, evs)) :
    evs.any Event.isPublish = true ↔ s.loop_counter = LOOP_COUNTER_ACTION_VALUE := by
  unfold loop_step at hstep
  by_cases hc : s.loop_counter = LOOP_COUNTER_ACTION_VALUE
  · rw [if_pos hc] at hstep
    refine ⟨fun _ => hc, fun _ => ?_⟩
    by_cases hm : s.mqttConnected = true
    · rw [if_pos hm] at hstep
      simp only [Option.some.injEq, Prod.mk.injEq] at hstep
      obtain ⟨_, hevs⟩ := hstep
      subst hevs
      rw [List.any_eq_true]
      exact ⟨Event.publishAttempt (temperatureTopic env.host)
          (szTemperature env.temperature) env.pubOk,
        List.mem_append.mpr (Or.inl (List.mem_append.mpr
          (Or.inr (List.mem_cons_self _ _)))), rfl⟩
    · rw [if_neg hm] at hstep
      by_cases hr : (mqtt_reconnect_run env.connectOk env.subOk env.host env.reconnectFuel 0).2
      · rw [if_pos hr] at hstep
        simp only [Option.some.injEq, Prod.mk.injEq] at hstep
        obtain ⟨_, hevs⟩ := hstep
        subst hevs
        rw [List.any_eq_true]
        exact ⟨Event.publishAttempt (temperatureTopic env.host)
            (szTemperature env.temperature) env.pubOk,
          List.mem_append.mpr (Or.inl (List.mem_append.mpr
            (Or.inr (List.mem_cons_self _ _)))), rfl⟩
      · rw [if_neg hr] at hstep
        exact absurd hstep (by simp)
  · rw [if_neg hc] at hstep
    simp only [Option.some.injEq, Prod.mk.injEq] at hstep
    obtain ⟨_, hevs⟩ := hstep
    subst hevs
    constructor
    · intro hany
      have : ((([] : List Event) ++
          [Event.serviceInbound, Event.delayMs LOOP_INTERVAL]).any Event.isPublish) = false := rfl
      rw [this] at hany
      exact absurd hany (by simp)
    · intro hceq
      exact absurd hceq hc

/-- C9: the loop phase counter always stays in [0, 240): the counter
update wraps at `LOOP_COUNTER_RESET_VALUE = 240` after every completed
iteration, and from the power-on counter 0 every run of completed
iterations keeps it below 240; the paced telemetry actions (the publish)
run exactly on the iterations where the counter equals the action value 0
— i.e. once per 240 iterations of 250 ms, a 60 000 ms period — while
`mqttClient.loop()` (inbound servicing) runs on every completed iteration
regardless of the counter. -/
theorem loop_phase_counter_pacing :
    (∀ (env : Env) (s s2 : LoopState) (evs : List Event),
        loop_step env s = some (s2, evs) → s2.loop_counter < LOOP_COUNTER_RESET_VALUE) ∧
    (∀ (envs : List Env) (s2 : LoopState),
        loop_iterate envs initialState = some s2 →
        s2.loop_counter < LOOP_COUNTER_RESET_VALUE) ∧
    (∀ (env : Env) (s s2 : LoopState) (evs : List Event),
        loop_step env s = some (s2, evs) →
        Event.serviceInbound ∈ evs ∧
        (evs.any Event.isPublish = true ↔ s.loop_counter = LOOP_COUNTER_ACTION_VALUE)) ∧
    LOOP_COUNTER_RESET_VALUE * LOOP_INTERVAL = 60000 := by
  refine ⟨?_, ?_, ?_, by decide⟩
  · intro env s s2 evs hstep
    rw [(loop_step_completes env s s2 evs hstep).2]
    exact nextCounter_lt s.loop_counter
  · intro envs s2 hit
    exact loop_iterate_lt envs initialState s2 (by decide) hit
  · intro env s s2 evs hstep
    exact ⟨(loop_step_completes env s s2 evs hstep).1,
      loop_step_publish_iff env s s2 evs hstep⟩

/-- Witness for C9: a concrete action iteration — it publishes, services
inbound messages, and its successor counter is 1 < 240. -/
theorem loop_phase_counter_pacing_witness :
    loop_step envW { loop_counter := 0, mqttConnected := true } =
      some ({ loop_counter := 1, mqttConnected := true }, evsW) ∧
    ({ loop_counter := 1, mqttConnected := true } : LoopState).loop_counter <
      LOOP_COUNTER_RESET_VALUE ∧
    (Event.serviceInbound ∈ evsW ∧
      (evsW.any Event.isPublish = true ↔
        ({ loop_counter := 0, mqttConnected := true } : LoopState).loop_counter =
          LOOP_COUNTER_ACTION_VALUE)) :=
  ⟨by decide,
    loop_phase_counter_pacing.1 envW { loop_counter := 0, mqttConnected := true }
      { loop_counter := 1, mqttConnected := true } evsW (by decide),
    loop_phase_counter_pacing.2.2.1 envW { loop_counter := 0, mqttConnected := true }
      { loop_counter := 1, mqttConnected := true } evsW (by decide)⟩

end Esp32C3
